import Mathlib

/-!
Shallow embedding of the openclaw-linear-plugin adapter
(`client.ts`, `tools.ts`, `index.ts`, `types.ts`).

The remote GraphQL service is modelled by an `Env` record: each outbound
request the client can issue is an `Env` field giving the remote's reply
(or a transport failure).  Client operations and tool handlers are pure
functions on `Env`; each returns its result together with the list of
requests it issued, so that side-effect claims ("issues no mutation",
"before any network call") are statable.

JavaScript string truthiness (`if (x)`) is embedded as `truthy` on
`Option String` (absent-or-empty is falsy); `x.toLowerCase()` as
`lowerStr`; `identifier.split("-")[0]` as `identifierTeamKey`.
-/

/-- JavaScript truthiness of an optional string: `undefined` and `""` are falsy. -/
def truthy : Option String → Bool
  | none => false
  | some s => !(s == "")

/-- ASCII lower-casing of one character, the effect of `toLowerCase()` on the
team keys and status names this adapter compares. -/
def lowerChar (c : Char) : Char :=
  if 'A' ≤ c ∧ c ≤ 'Z' then Char.ofNat (c.toNat + 32) else c

/-- Embedding of `s.toLowerCase()`. -/
def lowerStr (s : String) : String := String.mk (s.data.map lowerChar)

/-- Characters before the first dash. -/
def takeUntilDash : List Char → List Char
  | [] => []
  | c :: cs => if c = '-' then [] else c :: takeUntilDash cs

/-- Embedding of `identifier.split("-")[0]` (tools.ts, status resolution). -/
def identifierTeamKey (identifier : String) : String :=
  String.mk (takeUntilDash identifier.data)

/-- types.ts `LinearUser`. -/
structure LinearUser where
  id : String
  name : String
  email : String
  active : Bool
deriving DecidableEq

/-- A workflow state as returned by `getWorkflowStates` (id + display name). -/
structure WorkflowState where
  id : String
  name : String
deriving DecidableEq

/-- A team as returned by `getTeams` (client.ts). -/
structure Team where
  id : String
  key : String
  name : String
deriving DecidableEq

/-- types.ts `LinearTicket` (the normalized ticket shape). -/
structure LinearTicket where
  id : String
  identifier : String
  title : String
  description : Option String
  statusId : String
  statusName : String
  priority : Int
  priorityLabel : String
  assignee : Option LinearUser
  url : String
deriving DecidableEq

/-- A raw issue payload as the remote returns it, before `mapIssue`
normalization.  `teamKey` is the remote-side team of the issue, used by the
remote when evaluating list filters. -/
structure RawIssue where
  id : String
  identifier : String
  title : String
  description : Option String
  stateId : String
  stateName : String
  priority : Int
  priorityLabel : String
  assignee : Option LinearUser
  url : String
  teamKey : String
deriving DecidableEq

/-- types.ts `TicketUpdateInput`: the sparse variables object sent with the
update mutation.  A `none` field is absent from the serialized variables
(JSON drops `undefined`), so the remote does not touch it. -/
structure TicketUpdateInput where
  title : Option String := none
  description : Option String := none
  stateId : Option String := none
  priority : Option Int := none
  assigneeId : Option String := none
deriving DecidableEq

/-- types.ts `CreateTicketInput`. -/
structure CreateTicketInput where
  title : String
  teamId : String
  description : Option String := none
  assigneeId : Option String := none
deriving DecidableEq

/-- One outbound GraphQL request, as issued by `LinearClient`. -/
inductive Request where
  | createIssue (input : CreateTicketInput)
  | getIssue (identifier : String)
  | searchIssue (identifier : String)
  | updateIssue (id : String) (input : TicketUpdateInput)
  | listIssues (teamKey : String) (stateName : Option String) (limit : Nat)
  | usersQuery
  | teamsQuery
  | statesQuery (teamId : String)
deriving DecidableEq

/-- Whether a request is a mutation (a write to the remote). -/
def Request.isMutation : Request → Bool
  | .createIssue _ => true
  | .updateIssue _ _ => true
  | _ => false

/-- The errors `LinearClient` can throw, tagged by provenance; `message`
recovers the JavaScript `Error.message`. -/
inductive LErr where
  | transport (e : String)
  | notFound (identifier : String)
  | createFailed
  | updateFailed
deriving DecidableEq

/-- The `message` of the thrown `Error`. -/
def LErr.message : LErr → String
  | .transport e => e
  | .notFound identifier => "Ticket " ++ identifier ++ " not found"
  | .createFailed => "Failed to create ticket"
  | .updateFailed => "Failed to update ticket"

/-- The remote's reply to the create mutation (`issueCreate`). -/
structure CreateResp where
  success : Bool
  issue : RawIssue

/-- The Linear priority display labels the remote computes for 0..4. -/
def priorityLabelOf : Int → String
  | 0 => "No priority"
  | 1 => "Urgent"
  | 2 => "High"
  | 3 => "Medium"
  | 4 => "Low"
  | _ => "Unknown"

/-- Model of the remote GraphQL service: one field per endpoint the client
calls, each giving the remote's answer (or a transport failure). `issues` is
the remote corpus in most-recently-updated order, used by the search and list
queries; `issueById` is the store consulted by the update mutation. -/
structure Env where
  teamsResult : Except String (List Team)
  statesResult : String → Except String (List WorkflowState)
  usersResult : Except String (List LinearUser)
  issues : List RawIssue
  issueById : String → Option RawIssue
  primary : String → Except String (Option RawIssue)
  searchTransportError : String → Option String
  listTransportError : String → Option String → Nat → Option String
  createResult : CreateTicketInput → Except String CreateResp
  updateTransportError : String → TicketUpdateInput → Option String
  updateSuccess : String → TicketUpdateInput → Bool
  stateNameOf : String → String
  userById : String → Option LinearUser

/-- The remote's application of a sparse update to a stored issue: provided
fields overwrite, absent (`none`) fields are left unchanged. -/
def applyUpdate (env : Env) (i : RawIssue) (u : TicketUpdateInput) : RawIssue :=
  { i with
    title := u.title.getD i.title
    description := match u.description with
      | some d => some d
      | none => i.description
    stateId := u.stateId.getD i.stateId
    stateName := match u.stateId with
      | some sid => env.stateNameOf sid
      | none => i.stateName
    priority := u.priority.getD i.priority
    priorityLabel := match u.priority with
      | some p => priorityLabelOf p
      | none => i.priorityLabel
    assignee := match u.assigneeId with
      | some uid => env.userById uid
      | none => i.assignee }

namespace LinearClient

/-- client.ts `mapIssue`: normalization of a raw issue payload. -/
def mapIssue (issue : RawIssue) : LinearTicket :=
  { id := issue.id
    identifier := issue.identifier
    title := issue.title
    description := issue.description
    statusId := issue.stateId
    statusName := issue.stateName
    priority := issue.priority
    priorityLabel := issue.priorityLabel
    assignee := issue.assignee
    url := issue.url }

/-- client.ts `createTicket`: `issueCreate` mutation; throws
`Failed to create ticket` when the remote reports `success = false`. -/
def createTicket (env : Env) (input : CreateTicketInput) :
    Except LErr LinearTicket × List Request :=
  match env.createResult input with
  | .error e => (.error (.transport e), [.createIssue input])
  | .ok resp =>
      if resp.success then (.ok (mapIssue resp.issue), [.createIssue input])
      else (.error .createFailed, [.createIssue input])

/-- The outcome of the primary single-entity lookup (`issue(id: identifier)`):
`some i` exactly when the query succeeded and returned a non-null issue; a
transport failure or a null issue (whose `mapIssue` access throws) are both
failures of the primary path. -/
def primaryHit (env : Env) (identifier : String) : Option RawIssue :=
  match env.primary identifier with
  | .ok (some i) => some i
  | _ => none

/-- client.ts `getTicket`: primary lookup; on any failure, fall back to the
filtered search-by-identifier query (`first: 1`); throw
`Ticket <identifier> not found` when the search returns zero nodes. -/
def getTicket (env : Env) (identifier : String) :
    Except LErr LinearTicket × List Request :=
  match primaryHit env identifier with
  | some i => (.ok (mapIssue i), [.getIssue identifier])
  | none =>
      match env.searchTransportError identifier with
      | some e => (.error (.transport e), [.getIssue identifier, .searchIssue identifier])
      | none =>
          match env.issues.filter (fun i => i.identifier == identifier) with
          | [] => (.error (.notFound identifier), [.getIssue identifier, .searchIssue identifier])
          | i :: _ => (.ok (mapIssue i), [.getIssue identifier, .searchIssue identifier])

/-- client.ts `updateTicket`: resolve the identifier to the internal id via
`getTicket`, then send the `issueUpdate` mutation carrying exactly the
provided fields; throw `Failed to update ticket` on `success = false`. -/
def updateTicket (env : Env) (identifier : String) (u : TicketUpdateInput) :
    Except LErr LinearTicket × List Request :=
  match getTicket env identifier with
  | (.error e, tr) => (.error e, tr)
  | (.ok t, tr) =>
      match env.updateTransportError t.id u with
      | some e => (.error (.transport e), tr ++ [.updateIssue t.id u])
      | none =>
          if env.updateSuccess t.id u then
            match env.issueById t.id with
            | some raw => (.ok (mapIssue (applyUpdate env raw u)), tr ++ [.updateIssue t.id u])
            | none => (.error (.transport "entity not found"), tr ++ [.updateIssue t.id u])
          else (.error .updateFailed, tr ++ [.updateIssue t.id u])

/-- client.ts `assignTicket`: sugar over `updateTicket` setting only the
assignee reference. -/
def assignTicket (env : Env) (identifier : String) (userId : String) :
    Except LErr LinearTicket × List Request :=
  updateTicket env identifier { assigneeId := some userId }

/-- The remote evaluation of the list filter: exact team-key equality and,
when a state filter is present, exact state-name equality. -/
def matchesFilter (teamKey : String) (stateName : Option String) (i : RawIssue) : Bool :=
  i.teamKey == teamKey &&
    (match stateName with
     | some s => i.stateName == s
     | none => true)

/-- client.ts `listTickets`: one `issues` query whose filter is keyed on the
team (exact match) and, if a truthy status was supplied, the state name;
`first: limit` truncates the remote's answer. -/
def listTickets (env : Env) (teamKey : String) (status : Option String) (limit : Nat) :
    Except LErr (List LinearTicket) × List Request :=
  let stateFilter : Option String := if truthy status then status else none
  match env.listTransportError teamKey stateFilter limit with
  | some e => (.error (.transport e), [.listIssues teamKey stateFilter limit])
  | none =>
      (.ok (((env.issues.filter (matchesFilter teamKey stateFilter)).take limit).map mapIssue),
       [.listIssues teamKey stateFilter limit])

/-- client.ts `getUsers`. -/
def getUsers (env : Env) : Except LErr (List LinearUser) × List Request :=
  match env.usersResult with
  | .error e => (.error (.transport e), [.usersQuery])
  | .ok us => (.ok us, [.usersQuery])

/-- client.ts `getTeams`. -/
def getTeams (env : Env) : Except LErr (List Team) × List Request :=
  match env.teamsResult with
  | .error e => (.error (.transport e), [.teamsQuery])
  | .ok ts => (.ok ts, [.teamsQuery])

/-- client.ts `getWorkflowStates`. -/
def getWorkflowStates (env : Env) (teamId : String) :
    Except LErr (List WorkflowState) × List Request :=
  match env.statesResult teamId with
  | .error e => (.error (.transport e), [.statesQuery teamId])
  | .ok ss => (.ok ss, [.statesQuery teamId])

end LinearClient

/-- tools.ts `ToolResponse` content item (always of type "text"). -/
inductive ContentItem where
  | text (s : String)
deriving DecidableEq

/-- tools.ts `ToolResponse`. -/
structure ToolResponse where
  content : List ContentItem
deriving DecidableEq

/-- tools.ts `textResponse`. -/
def textResponse (s : String) : ToolResponse :=
  { content := [.text s] }

/-- tools.ts `formatTicket`. -/
def formatTicket (t : LinearTicket) : String :=
  String.intercalate "\n"
    [ "**" ++ t.identifier ++ "**: " ++ t.title
    , "Status: " ++ t.statusName
    , "Priority: " ++ t.priorityLabel
    , match t.assignee with
      | some a => "Assignee: " ++ a.name
      | none => "Assignee: Unassigned"
    , if truthy t.description then "\nDescription:\n" ++ t.description.getD "" else ""
    , "\nURL: " ++ t.url ]

/-- tools.ts `formatTicketList`. -/
def formatTicketList (tickets : List LinearTicket) : String :=
  if tickets.isEmpty then "No tickets found."
  else
    String.intercalate "\n"
      (tickets.map (fun t =>
        "- **" ++ t.identifier ++ "**: " ++ t.title ++ " [" ++ t.statusName ++ "] " ++
          match t.assignee with
          | some a => "(@" ++ a.name ++ ")"
          | none => ""))

/-- tools.ts `formatUserList`. -/
def formatUserList (users : List LinearUser) : String :=
  if users.isEmpty then "No users found."
  else
    String.intercalate "\n"
      (users.map (fun u =>
        "- **" ++ u.name ++ "** (" ++ u.email ++ ") - ID: `" ++ u.id ++ "` " ++
          if u.active then "" else "[inactive]"))

/-- Input of `linear_create_ticket`. -/
structure CreateParams where
  title : String
  projectKey : String
  description : Option String := none
  assigneeId : Option String := none
deriving DecidableEq

/-- Input of `linear_read_ticket`. -/
structure ReadParams where
  identifier : String
deriving DecidableEq

/-- Input of `linear_update_ticket`. -/
structure UpdateParams where
  identifier : String
  title : Option String := none
  description : Option String := none
  status : Option String := none
  priority : Option Int := none
deriving DecidableEq

/-- Input of `linear_assign_ticket`. -/
structure AssignParams where
  identifier : String
  userId : String
deriving DecidableEq

/-- Input of `linear_list_tickets`. -/
structure ListParams where
  projectKey : String
  status : Option String := none
  limit : Option Nat := none
deriving DecidableEq

/-- tools.ts `linear_create_ticket` handler.  Resolves the team key
case-insensitively; an unknown key yields the enumerating message and no
create mutation; thrown errors are caught and rendered with the
`Failed to create ticket:` prefix. -/
def linear_create_ticket (env : Env) (p : CreateParams) : ToolResponse × List Request :=
  match LinearClient.getTeams env with
  | (.error e, tr) => (textResponse ("Failed to create ticket: " ++ e.message), tr)
  | (.ok teams, tr) =>
      match teams.find? (fun t => lowerStr t.key == lowerStr p.projectKey) with
      | none =>
          (textResponse ("Team with key \"" ++ p.projectKey ++ "\" not found. Available teams: "
            ++ String.intercalate ", " (teams.map (fun t => t.key))), tr)
      | some team =>
          match LinearClient.createTicket env
              { title := p.title, teamId := team.id
                description := p.description, assigneeId := p.assigneeId } with
          | (.error e, tr2) =>
              (textResponse ("Failed to create ticket: " ++ e.message), tr ++ tr2)
          | (.ok ticket, tr2) =>
              (textResponse ("Created ticket **" ++ ticket.identifier ++ "**\n\nURL: " ++ ticket.url),
               tr ++ tr2)

/-- tools.ts `linear_read_ticket` handler. -/
def linear_read_ticket (env : Env) (p : ReadParams) : ToolResponse × List Request :=
  match LinearClient.getTicket env p.identifier with
  | (.error e, tr) => (textResponse ("Failed to get ticket: " ++ e.message), tr)
  | (.ok t, tr) => (textResponse (formatTicket t), tr)

/-- The sparse update object the `linear_update_ticket` handler builds before
status resolution: `title` and `description` are included only when truthy,
`priority` whenever it is defined. -/
def buildUpdates (p : UpdateParams) : TicketUpdateInput :=
  { title := if truthy p.title then p.title else none
    description := if truthy p.description then p.description else none
    stateId := none
    priority := p.priority
    assigneeId := none }

/-- The tail of the `linear_update_ticket` handler: send the update and
render the result, catching thrown errors. -/
def finishUpdate (env : Env) (identifier : String) (u : TicketUpdateInput)
    (tr : List Request) : ToolResponse × List Request :=
  match LinearClient.updateTicket env identifier u with
  | (.error e, tr2) => (textResponse ("Failed to update ticket: " ++ e.message), tr ++ tr2)
  | (.ok t, tr2) => (textResponse ("Updated ticket:\n\n" ++ formatTicket t), tr ++ tr2)

/-- tools.ts `linear_update_ticket` handler.  When a truthy status is
supplied: fetch the ticket, derive the team key from the identifier, resolve
the team case-insensitively; if the team resolves but the status name matches
none of its workflow states, return the enumerating message (no update); if
the team does not resolve, silently skip the status and proceed with the
remaining fields. -/
def linear_update_ticket (env : Env) (p : UpdateParams) : ToolResponse × List Request :=
  let updates := buildUpdates p
  if truthy p.status then
    match LinearClient.getTicket env p.identifier with
    | (.error e, tr) => (textResponse ("Failed to update ticket: " ++ e.message), tr)
    | (.ok _, tr1) =>
        let teamKey := identifierTeamKey p.identifier
        match LinearClient.getTeams env with
        | (.error e, tr2) =>
            (textResponse ("Failed to update ticket: " ++ e.message), tr1 ++ tr2)
        | (.ok teams, tr2) =>
            match teams.find? (fun t => lowerStr t.key == lowerStr teamKey) with
            | some team =>
                match LinearClient.getWorkflowStates env team.id with
                | (.error e, tr3) =>
                    (textResponse ("Failed to update ticket: " ++ e.message), tr1 ++ tr2 ++ tr3)
                | (.ok states, tr3) =>
                    match states.find?
                        (fun s => lowerStr s.name == lowerStr (p.status.getD "")) with
                    | some st =>
                        finishUpdate env p.identifier { updates with stateId := some st.id }
                          (tr1 ++ tr2 ++ tr3)
                    | none =>
                        (textResponse ("Status \"" ++ p.status.getD "" ++ "\" not found. Available statuses: "
                          ++ String.intercalate ", " (states.map (fun s => s.name))),
                         tr1 ++ tr2 ++ tr3)
            | none => finishUpdate env p.identifier updates (tr1 ++ tr2)
  else finishUpdate env p.identifier updates []

/-- tools.ts `linear_assign_ticket` handler. -/
def linear_assign_ticket (env : Env) (p : AssignParams) : ToolResponse × List Request :=
  match LinearClient.assignTicket env p.identifier p.userId with
  | (.error e, tr) => (textResponse ("Failed to assign ticket: " ++ e.message), tr)
  | (.ok t, tr) =>
      (textResponse ("Assigned **" ++ t.identifier ++ "** to " ++
        (match t.assignee with
         | some a => if a.name == "" then "user" else a.name
         | none => "user")), tr)

/-- tools.ts `linear_list_tickets` handler: `params.limit || 50` (so an
omitted — or falsy 0 — limit becomes 50). -/
def linear_list_tickets (env : Env) (p : ListParams) : ToolResponse × List Request :=
  let effLimit : Nat :=
    match p.limit with
    | none => 50
    | some n => if n == 0 then 50 else n
  match LinearClient.listTickets env p.projectKey p.status effLimit with
  | (.error e, tr) => (textResponse ("Failed to list tickets: " ++ e.message), tr)
  | (.ok ts, tr) =>
      (textResponse ("**Tickets in " ++ p.projectKey ++
        (match p.status with
         | some s => if s == "" then "" else " (" ++ s ++ ")"
         | none => "") ++ ":**\n\n" ++ formatTicketList ts), tr)

/-- tools.ts `linear_get_users` handler. -/
def linear_get_users (env : Env) : ToolResponse × List Request :=
  match LinearClient.getUsers env with
  | (.error e, tr) => (textResponse ("Failed to get users: " ++ e.message), tr)
  | (.ok us, tr) => (textResponse ("**Linear Users:**\n\n" ++ formatUserList us), tr)

/-- The six tool names registered by `registerLinearTools`, in registration
order. -/
def toolNames : List String :=
  [ "linear_create_ticket", "linear_read_ticket", "linear_update_ticket"
  , "linear_assign_ticket", "linear_list_tickets", "linear_get_users" ]

/-- Observable outcome of the plugin entry point: which tools were
registered and which log lines were emitted. -/
structure RegisterResult where
  tools : List String
  warns : List String
  infos : List String
deriving DecidableEq

/-- index.ts `register`: when the configured `apiKey` is falsy, warn once
and register nothing; otherwise register all six tools. -/
def register (apiKey : Option String) : RegisterResult :=
  if truthy apiKey then
    { tools := toolNames
      warns := []
      infos := ["Linear plugin: initializing...", "Linear plugin: 6 tools registered"] }
  else
    { tools := []
      warns := ["Linear plugin: apiKey not configured"]
      infos := [] }

/-- Declared numeric bounds of a schema field (`minimum` / `maximum`). -/
structure NumBounds where
  lo : Option Nat
  hi : Option Nat

/-- Whether a value satisfies declared bounds. -/
def NumBounds.ok (b : NumBounds) (n : Nat) : Bool :=
  (match b.lo with | some m => decide (m ≤ n) | none => true) &&
  (match b.hi with | some m => decide (n ≤ m) | none => true)

/-- tools.ts `linear_list_tickets` input schema: `limit` is declared with
`minimum: 1, maximum: 100`. -/
def listLimitBounds : NumBounds := { lo := some 1, hi := some 100 }

/-- Modelled from the spec: the plugin host (out of repository scope)
validates each invocation against the declared input schema before calling
the handler, so an input violating a declared bound is rejected without the
handler running and hence without any network request. -/
def invokeListTickets (env : Env) (p : ListParams) : ToolResponse × List Request :=
  if (match p.limit with | some n => listLimitBounds.ok n | none => true) then
    linear_list_tickets env p
  else (textResponse "Invalid input: limit violates the declared schema bounds", [])

/-- Whether `needle` is a leading segment of `hay` (character lists). -/
def isPrefixL : List Char → List Char → Bool
  | [], _ => true
  | _ :: _, [] => false
  | a :: as, b :: bs => a == b && isPrefixL as bs

/-- Whether `needle` occurs anywhere inside `hay` (character lists). -/
def containsL (needle : List Char) : List Char → Bool
  | [] => isPrefixL needle []
  | b :: bs => isPrefixL needle (b :: bs) || containsL needle bs

/-- A concrete workspace user for test environments. -/
def userSara : LinearUser :=
  { id := "user-1", name := "Sara", email := "sara@example.com", active := true }

/-- A concrete team for test environments. -/
def engTeam : Team := { id := "team-eng", key := "ENG", name := "Engineering" }

/-- A concrete remote issue for test environments. -/
def engIssue : RawIssue :=
  { id := "uuid-1", identifier := "ENG-1", title := "Fix login", description := some "desc"
    stateId := "st-todo", stateName := "Todo", priority := 2, priorityLabel := "High"
    assignee := none, url := "https://linear.app/e/ENG-1", teamKey := "ENG" }

/-- A healthy concrete remote: one team `ENG` with states Todo/Done, one
issue `ENG-1`, one user; every endpoint answers without transport failure. -/
def baseEnv : Env :=
  { teamsResult := .ok [engTeam]
    statesResult := fun tid =>
      if tid == "team-eng" then .ok [⟨"st-todo", "Todo"⟩, ⟨"st-done", "Done"⟩] else .ok []
    usersResult := .ok [userSara]
    issues := [engIssue]
    issueById := fun i => if i == "uuid-1" then some engIssue else none
    primary := fun idf => if idf == "ENG-1" then .ok (some engIssue) else .ok none
    searchTransportError := fun _ => none
    listTransportError := fun _ _ _ => none
    createResult := fun input =>
      .ok ⟨true, { engIssue with
                   id := "uuid-2"
                   identifier := "ENG-2"
                   title := input.title
                   url := "https://linear.app/e/ENG-2" }⟩
    updateTransportError := fun _ _ => none
    updateSuccess := fun _ _ => true
    stateNameOf := fun sid =>
      if sid == "st-todo" then "Todo" else if sid == "st-done" then "Done" else "?"
    userById := fun uid => if uid == "user-1" then some userSara else none }

/-- `baseEnv` with a primary lookup endpoint that rejects human-readable
identifiers, forcing `getTicket` onto the search fallback. -/
def fallbackEnv : Env :=
  { baseEnv with primary := fun _ => .error "primary endpoint rejected identifier" }

/-- A remote on which every endpoint fails with transport error `e`. -/
def failingEnv (e : String) : Env :=
  { teamsResult := .error e
    statesResult := fun _ => .error e
    usersResult := .error e
    issues := []
    issueById := fun _ => none
    primary := fun _ => .error e
    searchTransportError := fun _ => some e
    listTransportError := fun _ _ _ => some e
    createResult := fun _ => .error e
    updateTransportError := fun _ _ => some e
    updateSuccess := fun _ _ => false
    stateNameOf := fun _ => ""
    userById := fun _ => none }

/-- The update input carrying only a priority, as built by the update
handler when priority is the only supplied field. -/
def priorityOnly (pr : Int) : TicketUpdateInput := { priority := some pr }

/-- The trace of `getTicket` is the primary request alone (primary hit) or
the primary request followed by the search request. -/
theorem getTicket_trace (env : Env) (identifier : String) :
    (LinearClient.getTicket env identifier).2 = [.getIssue identifier] ∨
    (LinearClient.getTicket env identifier).2 =
      [.getIssue identifier, .searchIssue identifier] := by
  unfold LinearClient.getTicket
  cases LinearClient.primaryHit env identifier with
  | some i => left; rfl
  | none =>
      cases env.searchTransportError identifier with
      | some e => right; rfl
      | none =>
          cases env.issues.filter (fun i => i.identifier == identifier) with
          | nil => right; rfl
          | cons i rest => right; rfl

/-- `getTicket` never issues a mutation request. -/
theorem getTicket_no_mutation (env : Env) (identifier : String) :
    ∀ r ∈ (LinearClient.getTicket env identifier).2, r.isMutation = false := by
  rcases getTicket_trace env identifier with h | h <;> rw [h] <;>
    intro r hr <;> simp at hr
  · rw [hr]; rfl
  · rcases hr with hr | hr <;> rw [hr] <;> rfl

/-- Every update mutation issued by `updateTicket env identifier u` carries
exactly the input `u`. -/
theorem updateTicket_sends_exactly (env : Env) (identifier : String)
    (u : TicketUpdateInput) :
    ∀ id' u', Request.updateIssue id' u' ∈ (LinearClient.updateTicket env identifier u).2 →
      u' = u := by
  intro id' u' hmem
  unfold LinearClient.updateTicket at hmem
  rcases hg : LinearClient.getTicket env identifier with ⟨res, tr⟩
  have htr : ∀ r ∈ tr, Request.isMutation r = false := by
    have := getTicket_no_mutation env identifier
    rw [hg] at this; exact this
  rw [hg] at hmem
  cases res with
  | error e =>
      simp only at hmem
      have := htr _ hmem
      simp [Request.isMutation] at this
  | ok t =>
      simp only at hmem
      cases hc : env.updateTransportError t.id u with
      | some e =>
          rw [hc] at hmem
          simp only [List.mem_append, List.mem_singleton] at hmem
          rcases hmem with hmem | hmem
          · have := htr _ hmem; simp [Request.isMutation] at this
          · cases hmem; rfl
      | none =>
          rw [hc] at hmem
          by_cases hs : env.updateSuccess t.id u = true
          · rw [if_pos hs] at hmem
            cases hb : env.issueById t.id with
            | some raw =>
                rw [hb] at hmem
                simp only [List.mem_append, List.mem_singleton] at hmem
                rcases hmem with hmem | hmem
                · have := htr _ hmem; simp [Request.isMutation] at this
                · cases hmem; rfl
            | none =>
                rw [hb] at hmem
                simp only [List.mem_append, List.mem_singleton] at hmem
                rcases hmem with hmem | hmem
                · have := htr _ hmem; simp [Request.isMutation] at this
                · cases hmem; rfl
          · rw [if_neg hs] at hmem
            simp only [List.mem_append, List.mem_singleton] at hmem
            rcases hmem with hmem | hmem
            · have := htr _ hmem; simp [Request.isMutation] at this
            · cases hmem; rfl

/-- C8: for every identifier and userId, `assignTicket(identifier, userId)`
is extensionally equal to `updateTicket(identifier, u)` where `u` is the
partial update containing only the assignee reference set to `userId`. -/
theorem assignTicket_is_assignee_only_update (env : Env) (identifier userId : String) :
    LinearClient.assignTicket env identifier userId =
      LinearClient.updateTicket env identifier
        { title := none, description := none, stateId := none
          priority := none, assigneeId := some userId } := rfl

/-- C9: when the configured API key is falsy (absent or empty), `register`
registers zero operations and emits the missing-credential warning exactly
once; when the key is present, all six tool operations are registered and
no warning is emitted. -/
theorem register_requires_apiKey (k : Option String) :
    (truthy k = false →
      register k =
        { tools := [], warns := ["Linear plugin: apiKey not configured"], infos := [] }) ∧
    (truthy k = true →
      (register k).tools = toolNames ∧ toolNames.length = 6 ∧ (register k).warns = []) := by
  constructor
  · intro h; simp [register, h]
  · intro h; simp [register, h, toolNames]

/-- C9 witness: a missing key registers nothing and warns once; the key
`"lin_api_k"` registers the six tools. -/
theorem register_requires_apiKey_witness :
    truthy (none : Option String) = false ∧
    register none =
      { tools := [], warns := ["Linear plugin: apiKey not configured"], infos := [] } ∧
    truthy (some "lin_api_k") = true ∧
    (register (some "lin_api_k")).tools = toolNames :=
  ⟨by decide, (register_requires_apiKey none).1 (by decide), by decide,
   ((register_requires_apiKey (some "lin_api_k")).2 (by decide)).1⟩

/-- C10: in the update-ticket handler, a supplied title or description equal
to the empty string is dropped from the update input (inclusion is gated on
truthiness), while priority is gated only on being defined, so priority 0 is
included and, on a successful mutation, applied by the remote. -/
theorem update_truthiness_gating (p : UpdateParams) (pr : Int) (env : Env) (raw : RawIssue) :
    (p.title = some "" → (buildUpdates p).title = none) ∧
    (p.description = some "" → (buildUpdates p).description = none) ∧
    (p.priority = some pr → (buildUpdates p).priority = some pr) ∧
    (p.priority = some 0 → (applyUpdate env raw (buildUpdates p)).priority = 0) := by
  refine ⟨fun h => ?_, fun h => ?_, fun h => ?_, fun h => ?_⟩
  · simp [buildUpdates, truthy, h]
  · simp [buildUpdates, truthy, h]
  · simp [buildUpdates, h]
  · simp [applyUpdate, buildUpdates, h]

/-- C10 witness: with title and description supplied as `""` and priority 0,
the built update input drops both strings, keeps priority 0, and the remote
application sets the stored issue's priority to 0. -/
theorem update_truthiness_gating_witness :
    (buildUpdates { identifier := "ENG-1", title := some "", description := some ""
                    priority := some 0 }).title = none ∧
    (buildUpdates { identifier := "ENG-1", title := some "", description := some ""
                    priority := some 0 }).description = none ∧
    (buildUpdates { identifier := "ENG-1", title := some "", description := some ""
                    priority := some 0 }).priority = some 0 ∧
    (applyUpdate baseEnv engIssue
      (buildUpdates { identifier := "ENG-1", title := some "", description := some ""
                      priority := some 0 })).priority = 0 :=
  ⟨(update_truthiness_gating _ 0 baseEnv engIssue).1 rfl,
   (update_truthiness_gating _ 0 baseEnv engIssue).2.1 rfl,
   (update_truthiness_gating _ 0 baseEnv engIssue).2.2.1 rfl,
   (update_truthiness_gating _ 0 baseEnv engIssue).2.2.2 rfl⟩

/-- C7: in the create-ticket handler the supplied team key is matched
case-insensitively against each fetched team's key; when no team matches,
the handler returns the explanatory message enumerating all available team
keys and issues no create mutation. -/
theorem create_ticket_unknown_team (env : Env) (p : CreateParams) (teams : List Team)
    (hteams : env.teamsResult = .ok teams)
    (hmiss : teams.find? (fun t => lowerStr t.key == lowerStr p.projectKey) = none) :
    (linear_create_ticket env p).1 =
      textResponse ("Team with key \"" ++ p.projectKey ++ "\" not found. Available teams: "
        ++ String.intercalate ", " (teams.map (fun t => t.key))) ∧
    ∀ r ∈ (linear_create_ticket env p).2, r.isMutation = false := by
  constructor
  · simp [linear_create_ticket, LinearClient.getTeams, hteams, hmiss]
  · simp [linear_create_ticket, LinearClient.getTeams, hteams, hmiss, Request.isMutation]

/-- C7 witness: against `baseEnv` (whose only team key is `ENG`), creating
with team key `BOGUS` yields the enumerating message and no mutation. -/
theorem create_ticket_unknown_team_witness :
    (linear_create_ticket baseEnv { title := "T", projectKey := "BOGUS" }).1 =
      textResponse "Team with key \"BOGUS\" not found. Available teams: ENG" ∧
    ∀ r ∈ (linear_create_ticket baseEnv { title := "T", projectKey := "BOGUS" }).2,
      r.isMutation = false := by
  have h := create_ticket_unknown_team baseEnv { title := "T", projectKey := "BOGUS" }
    [engTeam] rfl (by decide)
  exact ⟨h.1.trans (by decide), h.2⟩

/-- C6: `listTickets` returns at most `limit` tickets; the list handler
sends limit 50 when the parameter is omitted; the declared schema bound for
`limit` is `maximum: 100`, so 150 violates it and a schema-validated
invocation with limit 150 is rejected with no network request issued. -/
theorem list_tickets_limit (env : Env) (key : String) (status : Option String)
    (lim : Nat) (p : ListParams) :
    (∀ l, (LinearClient.listTickets env key status lim).1 = .ok l → l.length ≤ lim) ∧
    (p.limit = none →
      (linear_list_tickets env p).2 =
        [.listIssues p.projectKey (if truthy p.status then p.status else none) 50]) ∧
    listLimitBounds.ok 150 = false ∧
    invokeListTickets env { projectKey := key, status := status, limit := some 150 } =
      (textResponse "Invalid input: limit violates the declared schema bounds", []) := by
  refine ⟨?_, ?_, by decide, rfl⟩
  · intro l hl
    unfold LinearClient.listTickets at hl
    cases hc : env.listTransportError key (if truthy status then status else none) lim with
    | some e => simp only [hc] at hl; exact absurd hl (by simp)
    | none =>
        simp only [hc, Except.ok.injEq] at hl
        subst hl
        simp
        
  · intro h
    unfold linear_list_tickets
    rw [h]
    simp only [LinearClient.listTickets]
    cases env.listTransportError p.projectKey (if truthy p.status then p.status else none) 50 <;> rfl

/-- C6 witness: on `baseEnv`, listing `ENG` with limit 1 returns one ticket
(within the bound), an omitted limit sends 50, and limit 150 violates the
declared bound. -/
theorem list_tickets_limit_witness :
    (LinearClient.listTickets baseEnv "ENG" none 1).1 = .ok [LinearClient.mapIssue engIssue] ∧
    [LinearClient.mapIssue engIssue].length ≤ 1 ∧
    (linear_list_tickets baseEnv { projectKey := "ENG" }).2 = [.listIssues "ENG" none 50] ∧
    listLimitBounds.ok 150 = false ∧
    invokeListTickets baseEnv { projectKey := "ENG", status := none, limit := some 150 } =
      (textResponse "Invalid input: limit violates the declared schema bounds", []) := by
  have h := list_tickets_limit baseEnv "ENG" none 1 { projectKey := "ENG" }
  refine ⟨rfl, h.1 [LinearClient.mapIssue engIssue] rfl, ?_, h.2.2.1, ?_⟩
  · have h2 := h.2.1 rfl
    simpa using h2
  · exact (list_tickets_limit baseEnv "ENG" none 1 { projectKey := "ENG" }).2.2.2

/-- C3: `getTicket` first attempts the primary single-entity lookup and
returns its normalized issue on a hit; on any failure of the primary path it
issues the search-by-identifier query; it returns the first search match
normalized; and it fails with the NotFound error exactly when the primary
path yields no issue and the search completes with zero results. -/
theorem getTicket_two_path (env : Env) (identifier : String) :
    (∀ i, LinearClient.primaryHit env identifier = some i →
      LinearClient.getTicket env identifier =
        (.ok (LinearClient.mapIssue i), [.getIssue identifier])) ∧
    (LinearClient.primaryHit env identifier = none →
      (LinearClient.getTicket env identifier).2 =
        [.getIssue identifier, .searchIssue identifier]) ∧
    (∀ i rest, LinearClient.primaryHit env identifier = none →
      env.searchTransportError identifier = none →
      env.issues.filter (fun j => j.identifier == identifier) = i :: rest →
      (LinearClient.getTicket env identifier).1 = .ok (LinearClient.mapIssue i)) ∧
    ((LinearClient.getTicket env identifier).1 = .error (.notFound identifier) ↔
      (LinearClient.primaryHit env identifier = none ∧
       env.searchTransportError identifier = none ∧
       env.issues.filter (fun j => j.identifier == identifier) = [])) := by
  refine ⟨?_, ?_, ?_, ?_⟩
  · intro i hi
    unfold LinearClient.getTicket
    rw [hi]
  · intro hnone
    unfold LinearClient.getTicket
    rw [hnone]
    cases env.searchTransportError identifier with
    | some e => rfl
    | none =>
        cases env.issues.filter (fun j => j.identifier == identifier) with
        | nil => rfl
        | cons i rest => rfl
  · intro i rest hnone hsearch hfilter
    unfold LinearClient.getTicket
    rw [hnone, hsearch, hfilter]
  · unfold LinearClient.getTicket
    cases hp : LinearClient.primaryHit env identifier with
    | some i => simp
    | none =>
        cases hs : env.searchTransportError identifier with
        | some e => simp
        | none =>
            cases hf : env.issues.filter (fun j => j.identifier == identifier) with
            | nil => simp
            | cons i rest => simp [hf]

/-- C3 witness: on `baseEnv` the primary path hits `ENG-1`; on
`fallbackEnv` (primary endpoint always failing) the search fallback returns
the same normalized ticket, and an identifier matching nothing fails with
the NotFound error. -/
theorem getTicket_two_path_witness :
    LinearClient.getTicket baseEnv "ENG-1" =
      (.ok (LinearClient.mapIssue engIssue), [.getIssue "ENG-1"]) ∧
    (LinearClient.getTicket fallbackEnv "ENG-1").1 = .ok (LinearClient.mapIssue engIssue) ∧
    (LinearClient.getTicket fallbackEnv "ENG-9").1 = .error (.notFound "ENG-9") :=
  ⟨(getTicket_two_path baseEnv "ENG-1").1 engIssue rfl,
   (getTicket_two_path fallbackEnv "ENG-1").2.2.1 engIssue [] rfl rfl rfl,
   (getTicket_two_path fallbackEnv "ENG-9").2.2.2.mpr ⟨rfl, rfl, rfl⟩⟩

/-- C2 counterexample: on a remote whose only real team key is `ENG`, the
list-tickets handler invoked with the unknown key `BOGUS` renders the fixed
"No tickets found." text; the response does not enumerate the real team
keys (the string `ENG` does not occur in it). -/
theorem list_tickets_unknown_key_counterexample :
    (linear_list_tickets baseEnv { projectKey := "BOGUS" }).1 =
      textResponse "**Tickets in BOGUS:**\n\nNo tickets found." ∧
    containsL "ENG".data ("**Tickets in BOGUS:**\n\nNo tickets found.").data = false := by
  decide

/-- C2 amended: the list filter is exact team-key equality (every issue the
remote selects has exactly the supplied key), the handler issues no
mutation, and when the filter selects nothing the handler renders the
"No tickets found." text rather than an enumeration of team keys. -/
theorem list_tickets_exact_filter (env : Env) (p : ListParams) :
    (∀ i ∈ env.issues.filter (LinearClient.matchesFilter p.projectKey
        (if truthy p.status then p.status else none)), i.teamKey = p.projectKey) ∧
    (∀ r ∈ (linear_list_tickets env p).2, r.isMutation = false) ∧
    (env.listTransportError p.projectKey (if truthy p.status then p.status else none)
        (match p.limit with | none => 50 | some n => if n == 0 then 50 else n) = none →
      env.issues.filter (LinearClient.matchesFilter p.projectKey
        (if truthy p.status then p.status else none)) = [] →
      (linear_list_tickets env p).1 =
        textResponse ("**Tickets in " ++ p.projectKey ++
          (match p.status with
           | some s => if s == "" then "" else " (" ++ s ++ ")"
           | none => "") ++ ":**\n\n" ++ "No tickets found.")) := by
  refine ⟨?_, ?_, ?_⟩
  · intro i hi
    rw [List.mem_filter] at hi
    have := hi.2
    unfold LinearClient.matchesFilter at this
    exact eq_of_beq (Bool.and_elim_left this)
  · intro r hr
    unfold linear_list_tickets LinearClient.listTickets at hr
    cases hc : env.listTransportError p.projectKey (if truthy p.status then p.status else none)
        (match p.limit with | none => 50 | some n => if n == 0 then 50 else n) with
    | some e =>
        simp only [hc] at hr
        simp only [List.mem_singleton] at hr
        rw [hr]; rfl
    | none =>
        simp only [hc] at hr
        simp only [List.mem_singleton] at hr
        rw [hr]; rfl
  · intro hnet hempty
    unfold linear_list_tickets LinearClient.listTickets
    simp only [hnet, hempty, List.take_nil, List.map_nil]
    rfl

/-- C2 witness: on `baseEnv`, every issue selected for key `ENG` has team
key `ENG`, no mutation is issued, and the unknown key `BOGUS` renders the
"No tickets found." text. -/
theorem list_tickets_exact_filter_witness :
    (∀ i ∈ baseEnv.issues.filter (LinearClient.matchesFilter "ENG" none), i.teamKey = "ENG") ∧
    (∀ r ∈ (linear_list_tickets baseEnv { projectKey := "ENG" }).2, r.isMutation = false) ∧
    (linear_list_tickets baseEnv { projectKey := "NOPE" }).1 =
      textResponse "**Tickets in NOPE:**\n\nNo tickets found." := by
  have h1 := (list_tickets_exact_filter baseEnv { projectKey := "ENG" }).1
  have h2 := (list_tickets_exact_filter baseEnv { projectKey := "ENG" }).2.1
  have h3 := (list_tickets_exact_filter baseEnv { projectKey := "NOPE" }).2.2 rfl rfl
  exact ⟨by simpa using h1, h2, by simpa using h3⟩

/-- C1 counterexample: on `baseEnv` (team `ENG` resolves; its states are
Todo and Done), updating `ENG-1` with title "New title" and the
unresolvable status "Bogus" returns the status-not-found message and issues
no update mutation at all — the supplied title is not applied. -/
theorem update_status_miss_counterexample :
    (linear_update_ticket baseEnv
        { identifier := "ENG-1", title := some "New title", status := some "Bogus" }).1 =
      textResponse "Status \"Bogus\" not found. Available statuses: Todo, Done" ∧
    ∀ r ∈ (linear_update_ticket baseEnv
        { identifier := "ENG-1", title := some "New title", status := some "Bogus" }).2,
      r.isMutation = false := by
  decide

/-- C1 amended: when an update-ticket invocation supplies a status name
that matches no workflow state of the resolved team (while the team itself
resolves), the handler returns the message enumerating the team's available
status names and issues no update mutation, so no other supplied field is
applied either. -/
theorem update_status_miss_blocks (env : Env) (p : UpdateParams) (st : String)
    (t : LinearTicket) (teams : List Team) (team : Team) (states : List WorkflowState)
    (hst : p.status = some st) (hne : (st == "") = false)
    (hget : LinearClient.getTicket env p.identifier = (.ok t, [.getIssue p.identifier]))
    (hteams : env.teamsResult = .ok teams)
    (hteam : teams.find?
      (fun tm => lowerStr tm.key == lowerStr (identifierTeamKey p.identifier)) = some team)
    (hstates : env.statesResult team.id = .ok states)
    (hmiss : states.find? (fun s => lowerStr s.name == lowerStr st) = none) :
    (linear_update_ticket env p).1 =
      textResponse ("Status \"" ++ st ++ "\" not found. Available statuses: "
        ++ String.intercalate ", " (states.map (fun s => s.name))) ∧
    ∀ r ∈ (linear_update_ticket env p).2, r.isMutation = false := by
  have htruthy : truthy p.status = true := by rw [hst]; simp [truthy, hne]
  constructor
  · unfold linear_update_ticket
    rw [htruthy, if_pos rfl, hget]
    simp only [LinearClient.getTeams, hteams, hteam, LinearClient.getWorkflowStates,
      hstates, hst, Option.getD_some, hmiss]
  · intro r hr
    unfold linear_update_ticket at hr
    rw [htruthy, if_pos rfl, hget] at hr
    simp only [LinearClient.getTeams, hteams, hteam, LinearClient.getWorkflowStates,
      hstates, hst, Option.getD_some, hmiss] at hr
    simp only [List.mem_append, List.mem_singleton] at hr
    rcases hr with (hr | hr) | hr <;> rw [hr] <;> rfl

/-- C1 witness: on `baseEnv`, updating `ENG-1` with description "d2" and
status "Blocked" (team `ENG` resolves, no state named Blocked) yields the
enumerating message and no mutation. -/
theorem update_status_miss_blocks_witness :
    (linear_update_ticket baseEnv
        { identifier := "ENG-1", description := some "d2", status := some "Blocked" }).1 =
      textResponse "Status \"Blocked\" not found. Available statuses: Todo, Done" ∧
    ∀ r ∈ (linear_update_ticket baseEnv
        { identifier := "ENG-1", description := some "d2", status := some "Blocked" }).2,
      r.isMutation = false := by
  have h := update_status_miss_blocks baseEnv
    { identifier := "ENG-1", description := some "d2", status := some "Blocked" }
    "Blocked" (LinearClient.mapIssue engIssue) [engTeam] engTeam
    [⟨"st-todo", "Todo"⟩, ⟨"st-done", "Done"⟩]
    rfl rfl rfl rfl (by decide) rfl (by decide)
  exact ⟨h.1.trans (by decide), h.2⟩

/-- C5: an update-ticket invocation supplying only priority sends an update
mutation whose variables carry a value only for priority (title,
description, stateId and assigneeId are absent), and the remote's
application of that sparse input leaves the ticket's title, description,
state and assignee unchanged. -/
theorem update_priority_only_frame (env : Env) (identifier : String) (pr : Int)
    (t : LinearTicket) (raw : RawIssue)
    (hget : LinearClient.getTicket env identifier = (.ok t, [.getIssue identifier]))
    (hraw : env.issueById t.id = some raw)
    (htr : env.updateTransportError t.id (priorityOnly pr) = none)
    (hs : env.updateSuccess t.id (priorityOnly pr) = true) :
    (∀ id' u', Request.updateIssue id' u' ∈
        (linear_update_ticket env { identifier := identifier, priority := some pr }).2 →
      u'.title = none ∧ u'.description = none ∧ u'.stateId = none ∧
        u'.assigneeId = none ∧ u'.priority = some pr) ∧
    (linear_update_ticket env { identifier := identifier, priority := some pr }).1 =
      textResponse ("Updated ticket:\n\n" ++
        formatTicket (LinearClient.mapIssue (applyUpdate env raw (priorityOnly pr)))) ∧
    (applyUpdate env raw (priorityOnly pr)).title = raw.title ∧
    (applyUpdate env raw (priorityOnly pr)).description = raw.description ∧
    (applyUpdate env raw (priorityOnly pr)).stateId = raw.stateId ∧
    (applyUpdate env raw (priorityOnly pr)).stateName = raw.stateName ∧
    (applyUpdate env raw (priorityOnly pr)).assignee = raw.assignee := by
  have hred : linear_update_ticket env { identifier := identifier, priority := some pr } =
      finishUpdate env identifier (priorityOnly pr) [] := rfl
  have hupd : LinearClient.updateTicket env identifier (priorityOnly pr) =
      (.ok (LinearClient.mapIssue (applyUpdate env raw (priorityOnly pr))),
       [.getIssue identifier] ++ [.updateIssue t.id (priorityOnly pr)]) := by
    unfold LinearClient.updateTicket
    rw [hget]
    simp only [htr, hs, hraw, if_true]
  refine ⟨?_, ?_, rfl, rfl, rfl, rfl, rfl⟩
  · intro id' u' hmem
    rw [hred] at hmem
    unfold finishUpdate at hmem
    rw [hupd] at hmem
    simp only [List.nil_append, List.cons_append, List.mem_cons,
      List.mem_singleton, List.not_mem_nil] at hmem
    rcases hmem with hmem | hmem
    · exact absurd hmem (by simp)
    · rcases hmem with hmem | hmem
      · cases hmem
        exact ⟨rfl, rfl, rfl, rfl, rfl⟩
      · exact absurd hmem (by simp)
  · rw [hred]
    unfold finishUpdate
    rw [hupd]

/-- C5 witness: on `baseEnv`, updating `ENG-1` with only priority 3 renders
the updated ticket and leaves title, description, state and assignee of the
stored issue unchanged. -/
theorem update_priority_only_frame_witness :
    (linear_update_ticket baseEnv { identifier := "ENG-1", priority := some 3 }).1 =
      textResponse ("Updated ticket:\n\n" ++
        formatTicket (LinearClient.mapIssue (applyUpdate baseEnv engIssue (priorityOnly 3)))) ∧
    (applyUpdate baseEnv engIssue (priorityOnly 3)).title = engIssue.title ∧
    (applyUpdate baseEnv engIssue (priorityOnly 3)).description = engIssue.description ∧
    (applyUpdate baseEnv engIssue (priorityOnly 3)).stateName = engIssue.stateName ∧
    (applyUpdate baseEnv engIssue (priorityOnly 3)).assignee = engIssue.assignee := by
  have h := update_priority_only_frame baseEnv "ENG-1" 3
    (LinearClient.mapIssue engIssue) engIssue rfl rfl rfl rfl
  exact ⟨h.2.1, h.2.2.1, h.2.2.2.1, h.2.2.2.2.2.1, h.2.2.2.2.2.2⟩

/-- The tail of the update handler always yields a textual response. -/
theorem finishUpdate_textual (env : Env) (identifier : String)
    (u : TicketUpdateInput) (tr : List Request) :
    ∃ s, (finishUpdate env identifier u tr).1 = textResponse s := by
  unfold finishUpdate
  cases h : LinearClient.updateTicket env identifier u with
  | mk res tr2 =>
      cases res with
      | error e => exact ⟨_, rfl⟩
      | ok t => exact ⟨_, rfl⟩

/-- C4 counterexample: the create handler's team-resolution miss is a
failure path whose text is not prefixed by the program's fixed
`Failed to ...` failure phrase for the operation. -/
theorem handlers_prefix_counterexample :
    (linear_create_ticket baseEnv { title := "T", projectKey := "NOPE" }).1 =
      textResponse "Team with key \"NOPE\" not found. Available teams: ENG" ∧
    isPrefixL "Failed to".data
      ("Team with key \"NOPE\" not found. Available teams: ENG").data = false := by
  decide

/-- C4 amended: no handler ever propagates an exception — each of the six
handlers always returns a single textual response; errors raised by the
Remote Access Layer are rendered with the fixed phrase identifying the
failed operation followed by the underlying message (exhibited on a remote
whose every endpoint fails with message `e`); resolution misses produce
explanatory enumerating messages instead. -/
theorem handlers_textual_totality :
    (∀ env p, ∃ s, (linear_create_ticket env p).1 = textResponse s) ∧
    (∀ env p, ∃ s, (linear_read_ticket env p).1 = textResponse s) ∧
    (∀ env p, ∃ s, (linear_update_ticket env p).1 = textResponse s) ∧
    (∀ env p, ∃ s, (linear_assign_ticket env p).1 = textResponse s) ∧
    (∀ env p, ∃ s, (linear_list_tickets env p).1 = textResponse s) ∧
    (∀ env, ∃ s, (linear_get_users env).1 = textResponse s) ∧
    (∀ e p, (linear_create_ticket (failingEnv e) p).1 =
      textResponse ("Failed to create ticket: " ++ e)) ∧
    (∀ e p, (linear_read_ticket (failingEnv e) p).1 =
      textResponse ("Failed to get ticket: " ++ e)) ∧
    (∀ e p, (linear_update_ticket (failingEnv e) p).1 =
      textResponse ("Failed to update ticket: " ++ e)) ∧
    (∀ e p, (linear_assign_ticket (failingEnv e) p).1 =
      textResponse ("Failed to assign ticket: " ++ e)) ∧
    (∀ e p, (linear_list_tickets (failingEnv e) p).1 =
      textResponse ("Failed to list tickets: " ++ e)) ∧
    (∀ e, (linear_get_users (failingEnv e)).1 =
      textResponse ("Failed to get users: " ++ e)) := by
  refine ⟨?_, ?_, ?_, ?_, ?_, ?_, fun e p => rfl, fun e p => rfl, ?_,
    fun e p => rfl, fun e p => rfl, fun e => rfl⟩
  · intro env p
    unfold linear_create_ticket
    cases h : LinearClient.getTeams env with
    | mk res tr =>
          cases res with
        | error e => exact ⟨_, rfl⟩
        | ok teams =>
            simp only []
            cases hf : teams.find? (fun t => lowerStr t.key == lowerStr p.projectKey) with
            | none => exact ⟨_, rfl⟩
            | some team =>
                simp only []
                cases hc : LinearClient.createTicket env
                    { title := p.title, teamId := team.id
                      description := p.description, assigneeId := p.assigneeId } with
                | mk res2 tr2 =>
                    cases res2 with
                    | error e => exact ⟨_, rfl⟩
                    | ok ticket => exact ⟨_, rfl⟩
  · intro env p
    unfold linear_read_ticket
    cases h : LinearClient.getTicket env p.identifier with
    | mk res tr =>
          cases res with
        | error e => exact ⟨_, rfl⟩
        | ok t => exact ⟨_, rfl⟩
  · intro env p
    unfold linear_update_ticket
    cases ht : truthy p.status with
    | false => simpa only [ht, Bool.false_eq_true, if_false] using
        finishUpdate_textual env p.identifier (buildUpdates p) []
    | true =>
        simp only [ht, if_true]
        cases h : LinearClient.getTicket env p.identifier with
        | mk res tr =>
                  cases res with
            | error e => exact ⟨_, rfl⟩
            | ok t =>
                simp only []
                cases h2 : LinearClient.getTeams env with
                | mk res2 tr2 =>
                    cases res2 with
                    | error e => exact ⟨_, rfl⟩
                    | ok teams =>
                        simp only []
                        cases hf : teams.find? (fun tm =>
                            lowerStr tm.key == lowerStr (identifierTeamKey p.identifier)) with
                        | none => exact finishUpdate_textual env p.identifier (buildUpdates p) _
                        | some team =>
                            simp only []
                            cases h3 : LinearClient.getWorkflowStates env team.id with
                            | mk res3 tr3 =>
                                cases res3 with
                                | error e => exact ⟨_, rfl⟩
                                | ok states =>
                                    simp only []
                                    cases hs : states.find? (fun s =>
                                        lowerStr s.name == lowerStr (p.status.getD "")) with
                                    | none => exact ⟨_, rfl⟩
                                    | some st =>
                                        exact finishUpdate_textual env p.identifier _ _
  · intro env p
    unfold linear_assign_ticket
    cases h : LinearClient.assignTicket env p.identifier p.userId with
    | mk res tr =>
          cases res with
        | error e => exact ⟨_, rfl⟩
        | ok t => exact ⟨_, rfl⟩
  · intro env p
    unfold linear_list_tickets
    simp only []
    cases h : LinearClient.listTickets env p.projectKey p.status
        (match p.limit with | none => 50 | some n => if n == 0 then 50 else n) with
    | mk res tr =>
          cases res with
        | error e => exact ⟨_, rfl⟩
        | ok ts => exact ⟨_, rfl⟩
  · intro env
    unfold linear_get_users
    cases h : LinearClient.getUsers env with
    | mk res tr =>
          cases res with
        | error e => exact ⟨_, rfl⟩
        | ok us => exact ⟨_, rfl⟩
  · intro e p
    unfold linear_update_ticket
    cases ht : truthy p.status with
    | false => rfl
    | true => rfl
